import Mathlib

/-!
Shallow embedding of the `EarlyAllocator` bump allocator from
`modules/bump_allocator/src/lib.rs` (ArceOS early-boot allocator).

The allocator owns one contiguous region `[base, base + size)`:
byte allocations grow forward from `b_pos`, page allocations grow
backward from `p_pos`.  All address arithmetic in the source is on
`usize`; we model it over `Nat` with explicit reduction modulo
`W = 2 ^ 64`, which is the wrapping (release-mode) semantics of the
Rust operators `+`, `-`, `*` on `usize`.

Fallible operations return `Option addr × state`: `none` models
`Err(AllocError::NoMemory)` (the only error the source uses, the
spec's "Exhausted"), `some a` models `Ok(a)`.
-/

set_option linter.unusedVariables false

namespace EarlyAllocator

/-- Number of `usize` values: machine arithmetic wraps modulo `W = 2 ^ 64`. -/
def W : ℕ := 2 ^ 64

/-- State of the `EarlyAllocator` struct, with the source's field names:
`base`/`size` describe the managed region, `b_pos` is the forward byte
cursor, `p_pos` the backward page cursor, `b_count` the number of
outstanding byte allocations. -/
structure State where
  base : ℕ
  size : ℕ
  b_pos : ℕ
  p_pos : ℕ
  b_count : ℕ
  deriving DecidableEq

/-- `BaseAllocator::init(start, size)`: `base = start`, `size = size`,
`b_pos = start`, `p_pos = start + size` (usize addition, hence mod `W`),
`b_count = 0`. -/
def init (start sz : ℕ) : State :=
  { base := start, size := sz, b_pos := start, p_pos := (start + sz) % W, b_count := 0 }

/-- `BaseAllocator::add_memory(start, size)`: returns `Ok(())` and changes
nothing. -/
def add_memory (s : State) (start sz : ℕ) : Option Unit × State :=
  (some (), s)

/-- `ByteAllocator::alloc(layout)`: `pos = b_pos + layout.size()` (usize,
wrapping); fail with `NoMemory` when `pos > p_pos`, otherwise return the old
`b_pos`, advance `b_pos` to `pos` and increment `b_count` (usize, wrapping).
The layout's alignment is never read by the source, so `align` is unused. -/
def alloc (s : State) (size align : ℕ) : Option ℕ × State :=
  if s.p_pos < (s.b_pos + size) % W then (none, s)
  else (some s.b_pos,
    { s with b_pos := (s.b_pos + size) % W, b_count := (s.b_count + 1) % W })

/-- `ByteAllocator::dealloc(pos, layout)`: if `pos > b_pos`, return without
doing anything; otherwise `b_count -= 1` (usize, wrapping — the source does
not guard the decrement) and, if the decremented count is `0`, reset `b_pos`
to `base`.  The layout argument is never read by the source. -/
def dealloc (s : State) (pos : ℕ) : State :=
  if s.b_pos < pos then s
  else if (s.b_count + (W - 1)) % W = 0 then
    { s with b_count := (s.b_count + (W - 1)) % W, b_pos := s.base }
  else { s with b_count := (s.b_count + (W - 1)) % W }

/-- `PageAllocator::alloc_pages(num_pages, align_pow2)`:
`pos = p_pos - num_pages * PAGE_SIZE` (usize, wrapping subtraction of a
wrapping product); fail with `NoMemory` when `pos < b_pos`, otherwise set
`p_pos = pos` and return `pos`.  `align_pow2` is never read by the source. -/
def alloc_pages (PAGE_SIZE : ℕ) (s : State) (num_pages align_pow2 : ℕ) : Option ℕ × State :=
  if (s.p_pos + (W - (num_pages * PAGE_SIZE) % W)) % W < s.b_pos then (none, s)
  else (some ((s.p_pos + (W - (num_pages * PAGE_SIZE) % W)) % W),
    { s with p_pos := (s.p_pos + (W - (num_pages * PAGE_SIZE) % W)) % W })

/-- `PageAllocator::dealloc_pages(pos, num_pages)`: a no-op. -/
def dealloc_pages (s : State) (pos num_pages : ℕ) : State :=
  s

/-- The spec's cursor invariant: `base ≤ byte_cursor ≤ page_cursor ≤ base + size`. -/
def Inv (s : State) : Prop :=
  s.base ≤ s.b_pos ∧ s.b_pos ≤ s.p_pos ∧ s.p_pos ≤ s.base + s.size

instance (s : State) : Decidable (Inv s) := by
  unfold Inv
  infer_instance

/-- States reachable from an initialized allocator by any sequence of the six
operations, with arbitrary `usize` arguments. -/
inductive Reachable (PAGE_SIZE : ℕ) : State → Prop where
  | rInit (start sz : ℕ) : Reachable PAGE_SIZE (init start sz)
  | rAddMemory (s : State) (start sz : ℕ) :
      Reachable PAGE_SIZE s → Reachable PAGE_SIZE (add_memory s start sz).2
  | rAlloc (s : State) (size align : ℕ) :
      Reachable PAGE_SIZE s → Reachable PAGE_SIZE (alloc s size align).2
  | rDealloc (s : State) (pos : ℕ) :
      Reachable PAGE_SIZE s → Reachable PAGE_SIZE (dealloc s pos)
  | rAllocPages (s : State) (num_pages align_pow2 : ℕ) :
      Reachable PAGE_SIZE s → Reachable PAGE_SIZE (alloc_pages PAGE_SIZE s num_pages align_pow2).2
  | rDeallocPages (s : State) (pos num_pages : ℕ) :
      Reachable PAGE_SIZE s → Reachable PAGE_SIZE (dealloc_pages s pos num_pages)

/-- States reachable by sequences of the six operations in which no cursor
arithmetic wraps around `W`: `init` is called with `start + size < W`, each
byte allocation satisfies `b_pos + size < W`, and each page allocation
satisfies `num_pages * PAGE_SIZE ≤ p_pos`. -/
inductive SafeReachable (PAGE_SIZE : ℕ) : State → Prop where
  | sInit (start sz : ℕ) (hw : start + sz < W) : SafeReachable PAGE_SIZE (init start sz)
  | sAddMemory (s : State) (start sz : ℕ) :
      SafeReachable PAGE_SIZE s → SafeReachable PAGE_SIZE (add_memory s start sz).2
  | sAlloc (s : State) (size align : ℕ) (hw : s.b_pos + size < W) :
      SafeReachable PAGE_SIZE s → SafeReachable PAGE_SIZE (alloc s size align).2
  | sDealloc (s : State) (pos : ℕ) :
      SafeReachable PAGE_SIZE s → SafeReachable PAGE_SIZE (dealloc s pos)
  | sAllocPages (s : State) (num_pages align_pow2 : ℕ)
      (hw : num_pages * PAGE_SIZE ≤ s.p_pos) :
      SafeReachable PAGE_SIZE s →
      SafeReachable PAGE_SIZE (alloc_pages PAGE_SIZE s num_pages align_pow2).2
  | sDeallocPages (s : State) (pos num_pages : ℕ) :
      SafeReachable PAGE_SIZE s → SafeReachable PAGE_SIZE (dealloc_pages s pos num_pages)

/-- Wrapping subtraction `a - b` on `usize` agrees with truncated `Nat`
subtraction when it does not underflow. -/
lemma wsub_no_underflow (a b : ℕ) (hb : b ≤ a) (ha : a < W) :
    (a + (W - b)) % W = a - b := by
  have h1 : a + (W - b) = (a - b) + W := by omega
  rw [h1, Nat.add_mod_right, Nat.mod_eq_of_lt]
  omega

/-- Every state reachable without wrapping arithmetic satisfies the cursor
invariant, and its region stays below the end of the address space. -/
lemma safeReachable_inv {PAGE_SIZE : ℕ} {s : State} (h : SafeReachable PAGE_SIZE s) :
    Inv s ∧ s.base + s.size < W := by
  induction h with
  | sInit start sz hw =>
      refine ⟨?_, hw⟩
      show start ≤ start ∧ start ≤ (start + sz) % W ∧ (start + sz) % W ≤ start + sz
      rw [Nat.mod_eq_of_lt hw]
      omega
  | sAddMemory s start sz _ ih => exact ih
  | sAlloc s size align hw _ ih =>
      obtain ⟨⟨h1, h2, h3⟩, h4⟩ := ih
      unfold alloc
      simp only [Nat.mod_eq_of_lt hw]
      split
      · exact ⟨⟨h1, h2, h3⟩, h4⟩
      · refine ⟨⟨?_, ?_, ?_⟩, ?_⟩ <;> simp [Inv] <;> omega
  | sDealloc s pos _ ih =>
      obtain ⟨⟨h1, h2, h3⟩, h4⟩ := ih
      unfold dealloc
      split
      · exact ⟨⟨h1, h2, h3⟩, h4⟩
      · split <;> refine ⟨⟨?_, ?_, ?_⟩, ?_⟩ <;> simp [Inv] <;> omega
  | sAllocPages s num_pages align_pow2 hw _ ih =>
      obtain ⟨⟨h1, h2, h3⟩, h4⟩ := ih
      have hpW : s.p_pos < W := by omega
      have hprod : (num_pages * PAGE_SIZE) % W = num_pages * PAGE_SIZE :=
        Nat.mod_eq_of_lt (lt_of_le_of_lt hw hpW)
      unfold alloc_pages
      simp only [hprod, wsub_no_underflow _ _ hw hpW]
      split
      · exact ⟨⟨h1, h2, h3⟩, h4⟩
      · refine ⟨⟨?_, ?_, ?_⟩, ?_⟩ <;> simp [Inv] <;> omega
  | sDeallocPages s pos num_pages _ ih => exact ih

/-- Folding `dealloc_pages` over any list of arguments changes nothing. -/
lemma foldl_dealloc_pages (s : State) (l : List (ℕ × ℕ)) :
    l.foldl (fun t q => dealloc_pages t q.1 q.2) s = s := by
  induction l with
  | nil => rfl
  | cons a l ih => exact ih

/-- Claim C1, counterexample: on the initialized state `init 0x1000 0x1000`
(so `b_pos = 0x1000`, `p_pos = 0x2000`), a request for `2 ^ 52` pages of size
`0x1000` satisfies the claim's failure condition
`page_cursor - n * PAGE_SIZE < byte_cursor`, yet `alloc_pages` succeeds: the
product `2 ^ 52 * 0x1000 = 2 ^ 64` wraps to `0`, so the code subtracts
nothing. -/
theorem c1_counterexample :
    ((alloc_pages 0x1000 (init 0x1000 0x1000) (2 ^ 52) 0).1).isSome = true ∧
    (init 0x1000 0x1000).p_pos - 2 ^ 52 * 0x1000 < (init 0x1000 0x1000).b_pos := by
  decide

/-- Claim C1 (amended): when no cursor arithmetic wraps around `2 ^ 64`
(`b_pos + size < W`, `p_pos < W`, `num_pages * PAGE_SIZE ≤ p_pos`), a byte
allocation fails with Exhausted iff `byte_cursor + size > page_cursor`, and
a page allocation fails with Exhausted iff
`page_cursor - num_pages * PAGE_SIZE < byte_cursor`. -/
theorem c1_exhaustion_iff (PAGE_SIZE : ℕ) (s : State)
    (size align num_pages align_pow2 : ℕ)
    (hb : s.b_pos + size < W) (hp : s.p_pos < W)
    (hn : num_pages * PAGE_SIZE ≤ s.p_pos) :
    ((alloc s size align).1 = none ↔ s.b_pos + size > s.p_pos) ∧
    ((alloc_pages PAGE_SIZE s num_pages align_pow2).1 = none ↔
      s.p_pos - num_pages * PAGE_SIZE < s.b_pos) := by
  constructor
  · unfold alloc
    simp only [Nat.mod_eq_of_lt hb]
    split <;> rename_i h <;> simp <;> omega
  · have hprod : (num_pages * PAGE_SIZE) % W = num_pages * PAGE_SIZE :=
      Nat.mod_eq_of_lt (lt_of_le_of_lt hn hp)
    unfold alloc_pages
    simp only [hprod, wsub_no_underflow _ _ hn hp]
    split <;> rename_i h <;> simp <;> omega

/-- Claim C1 witness: the amended equivalence evaluated on the initialized
state `init 0x1000 0x1000` with a 16-byte request and a one-page request. -/
theorem c1_exhaustion_iff_witness :
    ((alloc (init 0x1000 0x1000) 0x10 0).1 = none ↔
      (init 0x1000 0x1000).b_pos + 0x10 > (init 0x1000 0x1000).p_pos) ∧
    ((alloc_pages 0x1000 (init 0x1000 0x1000) 1 0).1 = none ↔
      (init 0x1000 0x1000).p_pos - 1 * 0x1000 < (init 0x1000 0x1000).b_pos) :=
  c1_exhaustion_iff 0x1000 (init 0x1000 0x1000) 0x10 0 1 0
    (by decide) (by decide) (by decide)

/-- Claim C2, counterexample: a zero-size allocation on `init 0x1000 0x1000`
succeeds but leaves `b_pos` unchanged, so `byte_cursor` does not strictly
increase after every successful allocation. -/
theorem c2_counterexample :
    ((alloc (init 0x1000 0x1000) 0 0).1).isSome = true ∧
    ¬ (init 0x1000 0x1000).b_pos < ((alloc (init 0x1000 0x1000) 0 0).2).b_pos := by
  decide

/-- Claim C2 (amended): every successful `alloc` returns the value of
`b_pos` immediately before the call and sets `b_pos` to
`(b_pos + size) % W`; when the requested size is positive and the sum does
not wrap, `b_pos` strictly increases by exactly the requested size. -/
theorem c2_alloc_advances (s : State) (size align r : ℕ) (s' : State)
    (h : alloc s size align = (some r, s')) :
    r = s.b_pos ∧ s'.b_pos = (s.b_pos + size) % W ∧
    (0 < size → s.b_pos + size < W →
      s.b_pos < s'.b_pos ∧ s'.b_pos = s.b_pos + size) := by
  unfold alloc at h
  split at h
  · simp at h
  · simp only [Prod.mk.injEq, Option.some.injEq] at h
    obtain ⟨hr, hs⟩ := h
    subst hr
    subst hs
    refine ⟨rfl, rfl, ?_⟩
    intro hpos hw
    show s.b_pos < (s.b_pos + size) % W ∧ (s.b_pos + size) % W = s.b_pos + size
    rw [Nat.mod_eq_of_lt hw]
    omega

/-- Claim C2 witness: a 16-byte allocation on `init 0x1000 0x1000` strictly
advances `b_pos` from `0x1000` to `0x1010`. -/
theorem c2_alloc_advances_witness :
    (init 0x1000 0x1000).b_pos < ((alloc (init 0x1000 0x1000) 0x10 0).2).b_pos ∧
    ((alloc (init 0x1000 0x1000) 0x10 0).2).b_pos = (init 0x1000 0x1000).b_pos + 0x10 :=
  (c2_alloc_advances (init 0x1000 0x1000) 0x10 0 0x1000
      (alloc (init 0x1000 0x1000) 0x10 0).2 (by decide)).2.2 (by decide) (by decide)

/-- Claim C3, counterexample: on `init 0x1000 0x1000`, a request for `2 ^ 56`
pages of size `0x100` succeeds (the product `2 ^ 64` wraps to `0`) but
`p_pos` does not decrease by `2 ^ 56 * 0x100`: it is unchanged. -/
theorem c3_counterexample :
    ((alloc_pages 0x100 (init 0x1000 0x1000) (2 ^ 56) 0).1).isSome = true ∧
    ¬ (init 0x1000 0x1000).p_pos =
        ((alloc_pages 0x100 (init 0x1000 0x1000) (2 ^ 56) 0).2).p_pos + 2 ^ 56 * 0x100 := by
  decide

/-- Claim C3 (amended): when the requested page span does not wrap
(`p_pos < W` and `num_pages * PAGE_SIZE ≤ p_pos`), every successful
`alloc_pages` decreases `p_pos` by exactly `num_pages * PAGE_SIZE` and
returns the post-decrement `p_pos` as the allocation's base. -/
theorem c3_alloc_pages_decreases (PAGE_SIZE : ℕ) (s : State)
    (num_pages align_pow2 r : ℕ) (s' : State)
    (h : alloc_pages PAGE_SIZE s num_pages align_pow2 = (some r, s'))
    (hp : s.p_pos < W) (hn : num_pages * PAGE_SIZE ≤ s.p_pos) :
    s'.p_pos = s.p_pos - num_pages * PAGE_SIZE ∧ r = s'.p_pos ∧
    s.p_pos = s'.p_pos + num_pages * PAGE_SIZE := by
  have hprod : (num_pages * PAGE_SIZE) % W = num_pages * PAGE_SIZE :=
    Nat.mod_eq_of_lt (lt_of_le_of_lt hn hp)
  unfold alloc_pages at h
  simp only [hprod, wsub_no_underflow _ _ hn hp] at h
  split at h
  · simp at h
  · simp only [Prod.mk.injEq, Option.some.injEq] at h
    obtain ⟨hr, hs⟩ := h
    subst hr
    subst hs
    refine ⟨rfl, rfl, ?_⟩
    show s.p_pos = (s.p_pos - num_pages * PAGE_SIZE) + num_pages * PAGE_SIZE
    omega

/-- Claim C3 witness: allocating one `0x1000`-byte page on
`init 0x1000 0x1000` moves `p_pos` from `0x2000` down to `0x1000` and
returns `0x1000`. -/
theorem c3_alloc_pages_decreases_witness :
    ((alloc_pages 0x1000 (init 0x1000 0x1000) 1 0).2).p_pos =
        (init 0x1000 0x1000).p_pos - 1 * 0x1000 ∧
    0x1000 = ((alloc_pages 0x1000 (init 0x1000 0x1000) 1 0).2).p_pos ∧
    (init 0x1000 0x1000).p_pos =
        ((alloc_pages 0x1000 (init 0x1000 0x1000) 1 0).2).p_pos + 1 * 0x1000 :=
  c3_alloc_pages_decreases 0x1000 (init 0x1000 0x1000) 1 0 0x1000
    (alloc_pages 0x1000 (init 0x1000 0x1000) 1 0).2 (by decide) (by decide) (by decide)

/-- Claim C4, counterexample: `init 1 (2 ^ 64 - 1)` is a reachable state
(one `init` call with valid `usize` arguments), but `start + size` wraps, so
`p_pos = 0 < b_pos = 1` and the cursor invariant fails. -/
theorem c4_counterexample :
    Reachable 0x1000 (init 1 (W - 1)) ∧ ¬ Inv (init 1 (W - 1)) :=
  ⟨Reachable.rInit 1 (W - 1), by decide⟩

/-- Claim C4 (amended): the invariant
`base ≤ byte_cursor ≤ page_cursor ≤ base + size` holds for every state
reachable by init / add_memory / alloc / dealloc / alloc_pages /
dealloc_pages, provided no cursor arithmetic wraps around `2 ^ 64`. -/
theorem c4_invariant (PAGE_SIZE : ℕ) (s : State)
    (h : SafeReachable PAGE_SIZE s) : Inv s :=
  (safeReachable_inv h).1

/-- Claim C4 witness: the invariant holds on the freshly initialized state
`init 0x1000 0x1000`. -/
theorem c4_invariant_witness : Inv (init 0x1000 0x1000) :=
  c4_invariant 0x1000 (init 0x1000 0x1000)
    (SafeReachable.sInit 0x1000 0x1000 (by decide))

/-- Claim C5 (code bug), evaluation at the failing input: on a freshly
initialized allocator (`b_count = 0`), `dealloc` at address `base`
(`0x1000 ≤ b_pos`) executes the unguarded `b_count -= 1`, which underflows:
under wrapping (release) semantics the count becomes `2 ^ 64 - 1` — it no
longer counts outstanding allocations and the reset-to-base reclamation can
no longer trigger — and under debug assertions the Rust subtraction panics,
contradicting the never-fail deallocation contract. -/
theorem c5_dealloc_underflow :
    (dealloc (init 0x1000 0x1000) 0x1000).b_count = 2 ^ 64 - 1 ∧
    (dealloc (init 0x1000 0x1000) 0x1000).b_pos = 0x1000 := by
  decide

/-- Claim C6, counterexample: on `init (2 ^ 64 - 16) 15` the byte cursor sits
at `2 ^ 64 - 16`; a 32-byte request overflows (`b_pos + 32 ≥ 2 ^ 64`) yet the
allocation succeeds, because the candidate wraps to `16 ≤ p_pos`. -/
theorem c6_counterexample :
    W ≤ (init (W - 16) 15).b_pos + 32 ∧
    ((alloc (init (W - 16) 15) 32 0).1).isSome = true := by
  decide

/-- Claim C6 (amended): the source does not guard the cursor arithmetic; it
wraps modulo `2 ^ 64`.  An overflowing byte request succeeds (returning the
old `b_pos` and storing the wrapped candidate) whenever the wrapped candidate
is at most `p_pos`, and an underflowing page request succeeds (returning the
wrapped candidate) whenever the wrapped candidate is at least `b_pos` —
rather than failing with Exhausted. -/
theorem c6_overflow_wraps (PAGE_SIZE : ℕ) (s : State)
    (size align num_pages align_pow2 : ℕ) :
    (W ≤ s.b_pos + size → (s.b_pos + size) % W ≤ s.p_pos →
      (alloc s size align).1 = some s.b_pos ∧
      ((alloc s size align).2).b_pos = (s.b_pos + size) % W) ∧
    (s.p_pos < (num_pages * PAGE_SIZE) % W →
      s.b_pos ≤ (s.p_pos + (W - (num_pages * PAGE_SIZE) % W)) % W →
      (alloc_pages PAGE_SIZE s num_pages align_pow2).1 =
        some ((s.p_pos + (W - (num_pages * PAGE_SIZE) % W)) % W) ∧
      ((alloc_pages PAGE_SIZE s num_pages align_pow2).2).p_pos =
        (s.p_pos + (W - (num_pages * PAGE_SIZE) % W)) % W) := by
  constructor
  · intro h1 h2
    unfold alloc
    rw [if_neg (by omega)]
    exact ⟨rfl, rfl⟩
  · intro h1 h2
    unfold alloc_pages
    rw [if_neg (by omega)]
    exact ⟨rfl, rfl⟩

/-- Claim C6 witness: the wrapped-arithmetic behavior evaluated on
`init (2 ^ 64 - 16) 15` with a 32-byte request. -/
theorem c6_overflow_wraps_witness :
    (alloc (init (W - 16) 15) 32 0).1 = some (init (W - 16) 15).b_pos ∧
    ((alloc (init (W - 16) 15) 32 0).2).b_pos = ((init (W - 16) 15).b_pos + 32) % W :=
  (c6_overflow_wraps 0x1000 (init (W - 16) 15) 32 0 1 0).1 (by decide) (by decide)

/-- Claim C7, counterexample: after `init 0 0x1000` (a region starting at
address 0), the first byte allocation succeeds and returns address `0` — a
null pointer is handed to `NonNull::new_unchecked`. -/
theorem c7_counterexample :
    (alloc (init 0 0x1000) 0x10 0).1 = some 0 := by
  decide

/-- Claim C7 (amended): in every state reachable without wrapping arithmetic
from an initialization with a positive base address, every successful byte
allocation returns a nonzero address. -/
theorem c7_alloc_nonzero (PAGE_SIZE : ℕ) (s : State) (size align r : ℕ)
    (h : SafeReachable PAGE_SIZE s) (hb : 0 < s.base)
    (hr : (alloc s size align).1 = some r) : 0 < r := by
  obtain ⟨⟨h1, h2, h3⟩, h4⟩ := safeReachable_inv h
  unfold alloc at hr
  split at hr
  · simp at hr
  · simp only [Option.some.injEq] at hr
    omega

/-- Claim C7 witness: a 16-byte allocation on `init 0x1000 0x1000` returns
the nonzero address `0x1000`. -/
theorem c7_alloc_nonzero_witness :
    (alloc (init 0x1000 0x1000) 0x10 0).1 = some 0x1000 ∧ 0 < 0x1000 :=
  ⟨by decide,
   c7_alloc_nonzero 0x1000 (init 0x1000 0x1000) 0x10 0 0x1000
     (SafeReachable.sInit 0x1000 0x1000 (by decide)) (by decide) (by decide)⟩

/-- Claim C8: whenever `alloc` or `alloc_pages` fails with Exhausted, the
whole allocator state (all five fields) is returned unchanged. -/
theorem c8_fail_no_mutation (PAGE_SIZE : ℕ) (s : State)
    (size align num_pages align_pow2 : ℕ) :
    ((alloc s size align).1 = none → (alloc s size align).2 = s) ∧
    ((alloc_pages PAGE_SIZE s num_pages align_pow2).1 = none →
      (alloc_pages PAGE_SIZE s num_pages align_pow2).2 = s) := by
  constructor
  · unfold alloc
    split <;> simp
  · unfold alloc_pages
    split <;> simp

/-- Claim C8 witness: on `init 0x1000 0` (an empty region) a 1-byte request
and a 1-page request both fail and both leave the state equal to the initial
state. -/
theorem c8_fail_no_mutation_witness :
    (alloc (init 0x1000 0) 1 0).2 = init 0x1000 0 ∧
    (alloc_pages 0x1000 (init 0x1000 0) 1 0).2 = init 0x1000 0 :=
  ⟨(c8_fail_no_mutation 0x1000 (init 0x1000 0) 1 0 1 0).1 (by decide),
   (c8_fail_no_mutation 0x1000 (init 0x1000 0) 1 0 1 0).2 (by decide)⟩

/-- Claim C9: `dealloc_pages` leaves the entire state (hence `p_pos`)
unchanged for every argument pair, and a page request that failed with
Exhausted still fails after any sequence of `dealloc_pages` calls. -/
theorem c9_dealloc_pages_frame (PAGE_SIZE : ℕ) (s : State)
    (pos num_pages m align_pow2 : ℕ) (l : List (ℕ × ℕ)) :
    dealloc_pages s pos num_pages = s ∧
    ((alloc_pages PAGE_SIZE s m align_pow2).1 = none →
      (alloc_pages PAGE_SIZE (l.foldl (fun t q => dealloc_pages t q.1 q.2) s)
        m align_pow2).1 = none) := by
  refine ⟨rfl, ?_⟩
  rw [foldl_dealloc_pages]
  exact id

/-- Claim C9 witness: on the empty region `init 0x1000 0`, a one-page request
fails, and it still fails after two `dealloc_pages` calls. -/
theorem c9_dealloc_pages_frame_witness :
    dealloc_pages (init 0x1000 0) 5 7 = init 0x1000 0 ∧
    (alloc_pages 0x1000
      ([(5, 7), (9, 9)].foldl (fun t q => dealloc_pages t q.1 q.2) (init 0x1000 0))
      1 0).1 = none :=
  ⟨(c9_dealloc_pages_frame 0x1000 (init 0x1000 0) 5 7 1 0 [(5, 7), (9, 9)]).1,
   (c9_dealloc_pages_frame 0x1000 (init 0x1000 0) 5 7 1 0 [(5, 7), (9, 9)]).2 (by decide)⟩

/-- Claim C10: in every state with `b_pos ≤ p_pos` (and `b_pos` a `usize`
value, `b_pos < 2 ^ 64`), a zero-size allocation succeeds, returns the
current `b_pos`, leaves `b_pos` unchanged, and still increments `b_count`
by one (`usize` increment); a second zero-size allocation returns the same
address. -/
theorem c10_zero_size_alloc (s : State) (align : ℕ)
    (hle : s.b_pos ≤ s.p_pos) (hw : s.b_pos < W) :
    (alloc s 0 align).1 = some s.b_pos ∧
    ((alloc s 0 align).2).b_pos = s.b_pos ∧
    ((alloc s 0 align).2).b_count = (s.b_count + 1) % W ∧
    (alloc (alloc s 0 align).2 0 align).1 = some s.b_pos := by
  have hmod : (s.b_pos + 0) % W = s.b_pos := by
    simpa using Nat.mod_eq_of_lt hw
  have hfst : alloc s 0 align =
      (some s.b_pos, { s with b_pos := s.b_pos, b_count := (s.b_count + 1) % W }) := by
    unfold alloc
    rw [hmod, if_neg (by omega)]
  rw [hfst]
  refine ⟨rfl, rfl, rfl, ?_⟩
  show (alloc { s with b_pos := s.b_pos, b_count := (s.b_count + 1) % W } 0 align).1
      = some s.b_pos
  unfold alloc
  dsimp only
  rw [hmod, if_neg (by omega)]

/-- Claim C10 witness: two consecutive zero-size allocations on
`init 0x1000 0x1000` both return `0x1000` and only the count changes. -/
theorem c10_zero_size_alloc_witness :
    (alloc (init 0x1000 0x1000) 0 0).1 = some (init 0x1000 0x1000).b_pos ∧
    ((alloc (init 0x1000 0x1000) 0 0).2).b_pos = (init 0x1000 0x1000).b_pos ∧
    ((alloc (init 0x1000 0x1000) 0 0).2).b_count =
        ((init 0x1000 0x1000).b_count + 1) % W ∧
    (alloc (alloc (init 0x1000 0x1000) 0 0).2 0 0).1 = some (init 0x1000 0x1000).b_pos :=
  c10_zero_size_alloc (init 0x1000 0x1000) 0 (by decide) (by decide)

end EarlyAllocator
